import Mathlib

/-!
Verification of the device communication and frame-decoding engine of the
Biosignal-Device-Interface repository (OT Bioelettronica Muovi,
Sessantaquattro and Quattrocento device classes).

Shallow embedding conventions:
* bytes are `Nat` values (< 256 on the wire); byte strings are `List Nat`;
* machine integers are `Int`/`Nat` with explicit bounds where overflow matters;
* Python code that can raise (IndexError, KeyError, OverflowError, TypeError)
  is embedded with `Option`/`Except`;
* Qt transport state (sockets, write results) is passed explicitly.
-/

/-! ## Codec primitives

`OTBMuovi._decode_int16` / `_decode_int24` (identical code in
`OTBSessantaquattro._decode_int16` / `_decode_int24`).  Indexing
`bytes_value[0]` / `[1]` / `[2]` raises `IndexError` on a short slice, hence
the `Option` result; extra trailing bytes are ignored by the source as well. -/

def decodeInt16 (bytesValue : List Nat) : Option Int :=
  match bytesValue with
  | b0 :: b1 :: _ =>
      let value : Int := (b0 : Int) * 2 ^ 8 + (b1 : Int)
      some (if value ≥ 2 ^ 15 then value - 2 ^ 16 else value)
  | _ => none

def decodeInt24 (bytesValue : List Nat) : Option Int :=
  match bytesValue with
  | b0 :: b1 :: b2 :: _ =>
      let value : Int := (b0 : Int) * 2 ^ 16 + (b1 : Int) * 2 ^ 8 + (b2 : Int)
      some (if value ≥ 2 ^ 23 then value - 2 ^ 24 else value)
  | _ => none

/-- Spec-side encoder: the two's-complement big-endian 2-byte encoding of `v`,
used to state the decode round-trip property. -/
def encode16 (v : Int) : List Nat :=
  let u : Nat := (v % 65536).toNat
  [u / 256, u % 256]

/-- Spec-side encoder: the two's-complement big-endian 3-byte encoding of `v`. -/
def encode24 (v : Int) : List Nat :=
  let u : Nat := (v % 16777216).toNat
  [u / 65536, u / 256 % 256, u % 256]

/-! ## CRC-8 checksum

`OTBQuattrocento._crc_check`.  The source xors the shifted checksum register
against 140 (0x8C) by formatting both as 8-character binary strings and
emitting "1" wherever the characters differ; `xorBits` mirrors that
character-by-character construction (character `k` of an `08b` string is bit
`7 - k`).  The spec-side variant `crcSpec` uses the mathematical bitwise xor
instead. -/

def xorBits (a b : Nat) : Nat :=
  (List.range 8).foldl
    (fun acc k =>
      acc + (if (a / 2 ^ (7 - k)) % 2 = (b / 2 ^ (7 - k)) % 2 then 0 else 2 ^ (7 - k)))
    0

/-- Source: one iteration of the inner `for i in range(8, 0, -1)` loop of
`_crc_check`: xor the low bits, shift the register, conditionally apply the
0x8C feedback, shift the input byte. -/
def crcRound (p : Nat × Nat) : Nat × Nat :=
  let s := p.1 % 2 ^^^ p.2 % 2
  let crc1 := p.1 / 2
  let crc2 := if s > 0 then xorBits crc1 140 else crc1
  (crc2, p.2 / 2)

def crcCheck (msg : List Nat) : Nat :=
  msg.foldl (fun crc b => ((List.range 8).foldl (fun p _ => crcRound p) (crc, b)).1) 0

/-- Spec-side round: identical to `crcRound` except that the 0x8C feedback is
the mathematical bitwise xor. -/
def crcSpecRound (p : Nat × Nat) : Nat × Nat :=
  let s := p.1 % 2 ^^^ p.2 % 2
  let crc1 := p.1 / 2
  let crc2 := if s > 0 then crc1 ^^^ 140 else crc1
  (crc2, p.2 / 2)

def crcSpec (msg : List Nat) : Nat :=
  msg.foldl (fun crc b => ((List.range 8).foldl (fun p _ => crcSpecRound p) (crc, b)).1) 0

lemma xorBits_eq_xor : ∀ a : Nat, a < 128 → xorBits a 140 = a ^^^ 140 := by decide

lemma xor140_lt (a : Nat) (h : a < 128) : a ^^^ 140 < 256 :=
  Nat.xor_lt_two_pow (n := 8) (by omega) (by norm_num)

lemma crcRound_eq (p : Nat × Nat) (h : p.1 < 256) :
    crcRound p = crcSpecRound p ∧ (crcRound p).1 < 256 := by
  unfold crcRound crcSpecRound
  have hd : p.1 / 2 < 128 := by omega
  constructor
  · simp only [xorBits_eq_xor _ hd]
  · dsimp only
    rw [xorBits_eq_xor _ hd]
    split
    · exact xor140_lt _ hd
    · omega

lemma crcFold_eq (n : Nat) (p : Nat × Nat) (h : p.1 < 256) :
    (List.range n).foldl (fun q _ => crcRound q) p
      = (List.range n).foldl (fun q _ => crcSpecRound q) p
    ∧ ((List.range n).foldl (fun q _ => crcRound q) p).1 < 256 := by
  induction n generalizing p with
  | zero => simpa using h
  | succ m ih =>
      have h2 := ih p h
      have h3 := crcRound_eq _ h2.2
      simp only [List.range_succ, List.foldl_append, List.foldl_cons, List.foldl_nil]
      rw [← h2.1]
      exact ⟨h3.1, h3.2⟩

lemma crcByteFold_eq (msg : List Nat) :
    ∀ crc : Nat, crc < 256 →
      msg.foldl (fun c b => ((List.range 8).foldl (fun p _ => crcRound p) (c, b)).1) crc
        = msg.foldl (fun c b => ((List.range 8).foldl (fun p _ => crcSpecRound p) (c, b)).1) crc
      ∧ msg.foldl (fun c b => ((List.range 8).foldl (fun p _ => crcRound p) (c, b)).1) crc < 256 := by
  induction msg with
  | nil => intro crc h; simpa using h
  | cons b rest ih =>
      intro crc h
      have h1 := crcFold_eq 8 (crc, b) h
      have h2 := ih _ h1.2
      simp only [List.foldl_cons]
      rw [← h1.1]
      exact ⟨h2.1, h2.2⟩

lemma crcCheck_eq_spec (msg : List Nat) : crcCheck msg = crcSpec msg :=
  (crcByteFold_eq msg 0 (by norm_num)).1

/-! ## Frame reassembly

`OTBMuovi._read_data` (the Sessantaquattro streaming branch is identical):

* the inner `while len(self._received_bytes) >= self._buffer_size` loop is
  `processBuffer`;
* the outer `while self._client_socket.bytesAvailable() > self._buffer_size`
  loop is `readData` — note the *strict* comparison against the socket, and
  that `read(buffer_size)` returns exactly `buffer_size` bytes there;
* `deliver` feeds a sequence of chunks into the socket, running `_read_data`
  after each arrival (the `readyRead` callback), with the device streaming.

The guards carry an extra `0 < T` conjunct: with `T = 0` the source loops
forever (`read(0)` yields an empty packet and `continue` re-tests an
unchanged condition), so no terminating embedding exists there; every claim
about the reassembler assumes a positive threshold. -/

def processBuffer (T : Nat) (buf : List Nat) : List (List Nat) × List Nat :=
  if h : 0 < T ∧ T ≤ buf.length then
    let frame := buf.take T
    let rest := processBuffer T (buf.drop T)
    (frame :: rest.1, rest.2)
  else ([], buf)
termination_by buf.length
decreasing_by simp only [List.length_drop]; omega

def readData (T : Nat) (sock buf : List Nat) : List Nat × List Nat × List (List Nat) :=
  if h : 0 < T ∧ T < sock.length then
    let packet := sock.take T
    let pb := processBuffer T (buf ++ packet)
    let rest := readData T (sock.drop T) pb.2
    (rest.1, rest.2.1, pb.1 ++ rest.2.2)
  else (sock, buf, [])
termination_by sock.length
decreasing_by simp only [List.length_drop]; omega

/-- Reassembly state: unread socket bytes, the `_received_bytes` buffer, and
the frames handed to `_process_data` so far. -/
structure RState where
  sock : List Nat
  buf : List Nat
  frames : List (List Nat)
deriving DecidableEq

def deliverChunk (T : Nat) (st : RState) (c : List Nat) : RState :=
  let r := readData T (st.sock ++ c) st.buf
  ⟨r.1, r.2.1, st.frames ++ r.2.2⟩

def deliver (T : Nat) (chunks : List (List Nat)) : RState :=
  chunks.foldl (deliverChunk T) ⟨[], [], []⟩

/-- Pure FrameBuffer view (claim C8): one reassembly pass — the arriving
chunk is appended to the retained buffer, then the inner while loop slices
off full frames. -/
def reassemblePass (T : Nat) (acc : List (List Nat) × List Nat) (c : List Nat) :
    List (List Nat) × List Nat :=
  let pb := processBuffer T (acc.2 ++ c)
  (acc.1 ++ pb.1, pb.2)

def reassemble (T : Nat) (chunks : List (List Nat)) : List (List Nat) × List Nat :=
  chunks.foldl (reassemblePass T) ([], [])

lemma processBuffer_eq (T : Nat) (buf : List Nat) :
    processBuffer T buf =
      if 0 < T ∧ T ≤ buf.length then
        ((buf.take T) :: (processBuffer T (buf.drop T)).1, (processBuffer T (buf.drop T)).2)
      else ([], buf) := by
  rw [processBuffer]
  split <;> rfl

lemma readData_eq (T : Nat) (sock buf : List Nat) :
    readData T sock buf =
      if 0 < T ∧ T < sock.length then
        ((readData T (sock.drop T) (processBuffer T (buf ++ sock.take T)).2).1,
         (readData T (sock.drop T) (processBuffer T (buf ++ sock.take T)).2).2.1,
         (processBuffer T (buf ++ sock.take T)).1
           ++ (readData T (sock.drop T) (processBuffer T (buf ++ sock.take T)).2).2.2)
      else (sock, buf, []) := by
  rw [readData]
  split <;> rfl

lemma processBuffer_spec (T : Nat) (hT : 0 < T) (buf : List Nat) :
    (processBuffer T buf).2.length = buf.length % T
    ∧ (processBuffer T buf).1.length = buf.length / T
    ∧ ∀ f ∈ (processBuffer T buf).1, f.length = T := by
  suffices H : ∀ (n : Nat) (b : List Nat), b.length ≤ n →
      (processBuffer T b).2.length = b.length % T
      ∧ (processBuffer T b).1.length = b.length / T
      ∧ ∀ f ∈ (processBuffer T b).1, f.length = T by
    exact H buf.length buf le_rfl
  intro n
  induction n with
  | zero =>
      intro b hb
      have hnil : b = [] := List.eq_nil_of_length_eq_zero (by omega)
      subst hnil
      rw [processBuffer_eq, if_neg (by simp; omega)]
      simp
  | succ m ih =>
      intro b hb
      rw [processBuffer_eq]
      split_ifs with hg
      · have hdrop : (b.drop T).length ≤ m := by
          simp only [List.length_drop]; omega
        obtain ⟨ih1, ih2, ih3⟩ := ih (b.drop T) hdrop
        refine ⟨?_, ?_, ?_⟩
        · simpa [ih1, List.length_drop] using (Nat.mod_eq_sub_mod hg.2).symm
        · simp only [List.length_cons, ih2, List.length_drop]
          rw [Nat.div_eq_sub_div hg.1 hg.2]
        · intro f hf
          rcases List.mem_cons.mp hf with hf | hf
          · subst hf; simp [List.length_take]; omega
          · exact ih3 f hf
      · push_neg at hg
        have hlt : b.length < T := hg hT
        refine ⟨?_, ?_, by simp⟩
        · simp [Nat.mod_eq_of_lt hlt]
        · simp [Nat.div_eq_of_lt hlt]

lemma processBuffer_nil (T : Nat) (hT : 0 < T) : processBuffer T [] = ([], []) := by
  rw [processBuffer_eq, if_neg (by simp; omega)]

lemma processBuffer_exact (T : Nat) (hT : 0 < T) (buf : List Nat)
    (h : buf.length = T) : processBuffer T buf = ([buf], []) := by
  rw [processBuffer_eq, if_pos ⟨hT, by omega⟩]
  rw [List.drop_eq_nil_of_le (by omega), processBuffer_nil T hT]
  have ht : buf.take T = buf := by
    rw [← h, List.take_length]
  rw [ht]

lemma readData_spec (T : Nat) (hT : 0 < T) : ∀ (sock : List Nat),
    (readData T sock []).2.1 = []
    ∧ (readData T sock []).1.length ≤ T
    ∧ (0 < sock.length → 0 < (readData T sock []).1.length)
    ∧ T * (readData T sock []).2.2.length + (readData T sock []).1.length = sock.length := by
  suffices H : ∀ (n : Nat) (sock : List Nat), sock.length ≤ n →
      (readData T sock []).2.1 = []
      ∧ (readData T sock []).1.length ≤ T
      ∧ (0 < sock.length → 0 < (readData T sock []).1.length)
      ∧ T * (readData T sock []).2.2.length + (readData T sock []).1.length = sock.length by
    intro sock; exact H sock.length sock le_rfl
  intro n
  induction n with
  | zero =>
      intro sock hs
      have hnil : sock = [] := List.eq_nil_of_length_eq_zero (by omega)
      subst hnil
      rw [readData_eq, if_neg (by simp)]
      simp
  | succ m ih =>
      intro sock hs
      rw [readData_eq]
      split_ifs with hg
      · have hpk : (sock.take T).length = T := by
          simp [List.length_take]; omega
        have hpb : processBuffer T ([] ++ sock.take T) = ([sock.take T], []) := by
          rw [List.nil_append]
          exact processBuffer_exact T hT _ hpk
        rw [hpb]
        have hdrop : (sock.drop T).length ≤ m := by
          simp only [List.length_drop]; omega
        obtain ⟨ih1, ih2, ih3, ih4⟩ := ih (sock.drop T) hdrop
        refine ⟨ih1, ih2, fun _ => ?_, ?_⟩
        · have : 0 < (sock.drop T).length := by
            simp only [List.length_drop]; omega
          exact ih3 this
        · simp only [List.length_append, List.length_cons, List.length_nil]
          have : T * (1 + (readData T (sock.drop T) []).2.2.length)
              = T + T * (readData T (sock.drop T) []).2.2.length := by ring
          rw [List.length_drop] at ih4
          calc T * (0 + 1 + (readData T (sock.drop T) []).2.2.length)
                + (readData T (sock.drop T) []).1.length
              = T + (T * (readData T (sock.drop T) []).2.2.length
                + (readData T (sock.drop T) []).1.length) := by ring
            _ = T + (sock.length - T) := by rw [ih4]
            _ = sock.length := by omega
      · push_neg at hg
        have hle : sock.length ≤ T := by
          by_cases h0 : T < sock.length
          · exact absurd (hg hT) (by omega)
          · omega
        exact ⟨rfl, hle, fun h => h, by simp⟩

lemma deliver_foldl_inv (T : Nat) (hT : 0 < T) (chunks : List (List Nat)) :
    ∀ st : RState, st.buf = [] → st.sock.length ≤ T →
      (chunks.foldl (deliverChunk T) st).buf = []
      ∧ (chunks.foldl (deliverChunk T) st).sock.length ≤ T
      ∧ T * (chunks.foldl (deliverChunk T) st).frames.length
          + (chunks.foldl (deliverChunk T) st).sock.length
        = T * st.frames.length + st.sock.length + (chunks.map List.length).sum
      ∧ (0 < st.sock.length + (chunks.map List.length).sum →
          0 < (chunks.foldl (deliverChunk T) st).sock.length) := by
  induction chunks with
  | nil =>
      intro st h1 h2
      refine ⟨h1, h2, by simp, by simpa using fun h => h⟩
  | cons c rest ih =>
      intro st h1 h2
      obtain ⟨r1, r2, r3, r4⟩ := readData_spec T hT (st.sock ++ c)
      simp only [List.foldl_cons]
      have hd : deliverChunk T st c
          = ⟨(readData T (st.sock ++ c) []).1, (readData T (st.sock ++ c) []).2.1,
             st.frames ++ (readData T (st.sock ++ c) []).2.2⟩ := by
        simp [deliverChunk, h1]
      have hst : (deliverChunk T st c).buf = [] := by rw [hd]; exact r1
      have hsl : (deliverChunk T st c).sock.length ≤ T := by rw [hd]; exact r2
      obtain ⟨i1, i2, i3, i4⟩ := ih (deliverChunk T st c) hst hsl
      have hfr : (deliverChunk T st c).frames
          = st.frames ++ (readData T (st.sock ++ c) []).2.2 := by rw [hd]
      have hsk : (deliverChunk T st c).sock = (readData T (st.sock ++ c) []).1 := by
        rw [hd]
      refine ⟨i1, i2, ?_, ?_⟩
      · rw [i3, hfr, hsk]
        simp only [List.length_append] at r4 ⊢
        simp only [List.map_cons, List.sum_cons]
        have hm : T * (st.frames.length + (readData T (st.sock ++ c) []).2.2.length)
            = T * st.frames.length + T * (readData T (st.sock ++ c) []).2.2.length := by
          ring
        omega
      · intro hpos
        apply i4
        rw [hsk]
        simp only [List.map_cons, List.sum_cons] at hpos
        by_cases hc : 0 < st.sock.length + c.length
        · have hpp : 0 < (st.sock ++ c).length := by
            simp only [List.length_append]; omega
          have := r3 hpp
          omega
        · have hrest : 0 < (rest.map List.length).sum := by omega
          omega

lemma deliver_frames_count (T N : Nat) (hT : 0 < T) (hN : 1 ≤ N)
    (chunks : List (List Nat)) (hsum : (chunks.map List.length).sum = N * T) :
    (deliver T chunks).frames.length = N - 1
    ∧ (deliver T chunks).sock.length = T := by
  have h0 : (⟨[], [], []⟩ : RState).buf = [] := rfl
  have h1 : (⟨[], [], []⟩ : RState).sock.length ≤ T := by simp
  obtain ⟨i1, i2, i3, i4⟩ := deliver_foldl_inv T hT chunks ⟨[], [], []⟩ h0 h1
  simp only [deliver]
  set st := chunks.foldl (deliverChunk T) (⟨[], [], []⟩ : RState) with hst
  simp only [hsum] at i3 i4
  have hpos : 0 < st.sock.length := by
    apply i4
    have : 0 < N * T := Nat.mul_pos (by omega) hT
    simpa using this
  simp only [List.length_nil, Nat.mul_zero, Nat.zero_add] at i3
  -- `T * F + s = N * T`, `0 < s ≤ T`, hence `F = N - 1`, `s = T`.
  have hF : st.frames.length < N := by
    by_contra hge
    push_neg at hge
    have : N * T ≤ T * st.frames.length := by
      calc N * T ≤ st.frames.length * T := Nat.mul_le_mul_right T hge
        _ = T * st.frames.length := Nat.mul_comm _ _
    omega
  have hF2 : N ≤ st.frames.length + 1 := by
    by_contra hlt
    push_neg at hlt
    have h2 : st.frames.length + 1 + 1 ≤ N := hlt
    have : (st.frames.length + 2) * T ≤ N * T := Nat.mul_le_mul_right T h2
    have hexp : (st.frames.length + 2) * T = T * st.frames.length + T + T := by ring
    omega
  have hFeq : st.frames.length = N - 1 := by omega
  refine ⟨hFeq, ?_⟩
  have : N = st.frames.length + 1 := by omega
  rw [this] at i3
  have hexp : (st.frames.length + 1) * T = T * st.frames.length + T := by ring
  omega

lemma reassemble_foldl_spec (T : Nat) (hT : 0 < T) :
    ∀ (chunks : List (List Nat)) (acc : List (List Nat) × List Nat),
      (∀ f ∈ acc.1, f.length = T) → acc.2.length < T →
      (∀ f ∈ (chunks.foldl (reassemblePass T) acc).1, f.length = T)
      ∧ (chunks.foldl (reassemblePass T) acc).2.length < T := by
  intro chunks
  induction chunks with
  | nil => intro acc h1 h2; exact ⟨h1, h2⟩
  | cons c rest ih =>
      intro acc h1 h2
      simp only [List.foldl_cons]
      obtain ⟨p1, p2, p3⟩ := processBuffer_spec T hT (acc.2 ++ c)
      apply ih
      · intro f hf
        rcases List.mem_append.mp hf with hf | hf
        · exact h1 f hf
        · exact p3 f hf
      · simp only [reassemblePass]
        rw [p1]
        exact Nat.mod_lt _ hT

/-- Claim C8 aggregate: after every sequence of reassembly passes the retained
buffer is strictly below the threshold and every emitted frame has exactly
threshold length. -/
lemma reassemble_spec (T : Nat) (hT : 0 < T) (chunks : List (List Nat)) :
    (∀ f ∈ (reassemble T chunks).1, f.length = T)
    ∧ (reassemble T chunks).2.length < T := by
  exact reassemble_foldl_spec T hT chunks ([], []) (by simp) (by simpa using hT)

/-! ## Sample decoding loop (`OTBMuovi._bytes_to_integers`)

The source iterates `for channel_index in range(len(data) // 2)` — the
division is by the literal `2` whatever `self._bytes_per_sample` holds — and
slices `data[channel_index * bytes_per_sample : (channel_index + 1) *
bytes_per_sample]` (a Python slice, which clamps at the end of the data).
A `match` arm exists for EMG (16-bit decode) and EEG (24-bit decode) only;
for any other working mode `value` stays unbound and the subsequent use
raises `NameError`, embedded as `none`. -/

inductive MuoviWorkingMode
  | NONE
  | EMG
  | EEG
deriving DecidableEq

def muoviBytesToIntegers (workingMode : MuoviWorkingMode) (bytesPerSample : Nat)
    (data : List Nat) : Option (List Int) :=
  (List.range (data.length / 2)).mapM (fun channelIndex =>
    let channel := (data.drop (channelIndex * bytesPerSample)).take bytesPerSample
    match workingMode with
    | .EMG => decodeInt16 channel
    | .EEG => decodeInt24 channel
    | .NONE => none)

/-! ## Device session states

The lifecycle flags come from `BaseDevice.__init__` (`is_connected`,
`_is_configured`, `_is_streaming`); the transport handles are the Qt socket
objects, modelled as `Option Bool` (`none` = the attribute is still `None`,
`some b` = a socket object exists and `b` says whether it is open).  The
configuration command of the single-byte devices is an `Option Int`
(`None` before the first `_configure_command`). -/

structure MuoviState where
  isConnected : Bool
  isConfigured : Bool
  isStreaming : Bool
  clientOpen : Option Bool
  serverOpen : Option Bool
  cmd : Option Int
deriving DecidableEq

/-- Source `OTBMuovi._disconnect_from_device` together with the
`BaseDevice._disconnect_from_device` body run by its `super()` call: the base
body sets `is_connected = False` and `_is_configured = False` (note that it
never touches `_is_streaming`), then the override closes the accepted client
socket and the listening server when they exist.  Qt signal rewiring and the
emitted notifications are not modelled. -/
def muoviDisconnect (st : MuoviState) : MuoviState :=
  { st with
    isConnected := false
    isConfigured := false
    clientOpen := st.clientOpen.map (fun _ => false)
    serverOpen := st.serverOpen.map (fun _ => false) }

/-- Models Python `int(n).to_bytes(1, byteorder="big")`: the single wire byte
for `0 ≤ n < 256`, `OverflowError` (here `none`) otherwise. -/
def toBytes1 (n : Int) : Option Nat :=
  if 0 ≤ n ∧ n < 256 then some n.toNat else none

/-- Source `OTBMuovi._send_configuration_to_device`: convert the command with
`int(...).to_bytes(1, "big")` (`TypeError` on `None`, `OverflowError` outside
a byte — both `none` here), write it, and disconnect implicitly when the
write returns `-1`.  The result carries the byte that went over the wire. -/
def muoviSendConfiguration (st : MuoviState) (writeResult : Int) :
    Option (MuoviState × Nat) :=
  match st.cmd with
  | none => none
  | some c =>
      match toBytes1 c with
      | none => none
      | some b => some (if writeResult = -1 then muoviDisconnect st else st, b)

/-- Source `OTBMuovi._configure_command`: working mode into the high bits
(left shift by 2), detection mode added into the low bits.  The numeric enum
values are taken as parameters: `otb_muovi_constants.py` is not part of the
sources. -/
def muoviConfigureCommand (workingMode detectionMode : Nat) : Nat :=
  (workingMode <<< 2) + detectionMode

/-- Source `OTBMuovi._start_streaming`: the `super()` body sets
`_is_streaming = True` and emits, then the override returns early if no
command exists, otherwise increments the command and sends it (a failed
write disconnects inside the send). -/
def muoviStartStreaming (st : MuoviState) (writeResult : Int) : MuoviState :=
  let st1 := { st with isStreaming := true }
  match st1.cmd with
  | none => st1
  | some c =>
      let st2 := { st1 with cmd := some (c + 1) }
      match muoviSendConfiguration st2 writeResult with
      | some p => p.1
      | none => st2

/-- Source `OTBMuovi._stop_streaming`: mirror image of `_start_streaming`
with `_is_streaming = False` and a decrement. -/
def muoviStopStreaming (st : MuoviState) (writeResult : Int) : MuoviState :=
  let st1 := { st with isStreaming := false }
  match st1.cmd with
  | none => st1
  | some c =>
      let st2 := { st1 with cmd := some (c - 1) }
      match muoviSendConfiguration st2 writeResult with
      | some p => p.1
      | none => st2

/-- Source `BaseDevice.toggle_streaming`: stop when streaming, start
otherwise (`clear_socket` touches only socket buffers, none of the state
modelled here). -/
def muoviToggleStreaming (st : MuoviState) (writeResult : Int) : MuoviState :=
  if st.isStreaming then muoviStopStreaming st writeResult
  else muoviStartStreaming st writeResult

/-- `n` successive `toggle_streaming()` calls. -/
def muoviToggleIter (writeResult : Int) : Nat → MuoviState → MuoviState
  | 0, st => st
  | n + 1, st => muoviToggleIter writeResult n (muoviToggleStreaming st writeResult)

lemma muoviSend_preserves_streaming (st : MuoviState) (wr : Int) (p : MuoviState × Nat)
    (h : muoviSendConfiguration st wr = some p) : p.1.isStreaming = st.isStreaming := by
  rcases hc : st.cmd with _ | c
  · simp [muoviSendConfiguration, hc] at h
  · rcases hb : toBytes1 c with _ | b
    · simp [muoviSendConfiguration, hc, hb] at h
    · simp only [muoviSendConfiguration, hc, hb] at h
      simp only [Option.some.injEq] at h
      rw [← h]
      by_cases hw : wr = -1
      · simp [hw, muoviDisconnect]
      · simp [hw]

lemma muoviToggle_flips (st : MuoviState) (wr : Int) :
    (muoviToggleStreaming st wr).isStreaming = !st.isStreaming := by
  unfold muoviToggleStreaming muoviStartStreaming muoviStopStreaming
  split
  all_goals rename_i hs
  · rw [hs]
    rcases hc : st.cmd with _ | c
    · rfl
    · simp only []
      rcases hsend : muoviSendConfiguration { st with isStreaming := false, cmd := some (c - 1) } wr with _ | p
      · rfl
      · exact muoviSend_preserves_streaming _ _ _ hsend
  · simp only [Bool.not_eq_true] at hs
    rw [hs]
    rcases hc : st.cmd with _ | c
    · rfl
    · simp only []
      rcases hsend : muoviSendConfiguration { st with isStreaming := true, cmd := some (c + 1) } wr with _ | p
      · rfl
      · exact muoviSend_preserves_streaming _ _ _ hsend

lemma muoviToggleIter_parity (wr : Int) :
    ∀ (n : Nat) (st : MuoviState),
      (muoviToggleIter wr n st).isStreaming
        = (st.isStreaming ^^ decide (n % 2 = 1)) := by
  intro n
  induction n with
  | zero => intro st; simp [muoviToggleIter]
  | succ m ih =>
      intro st
      have hstep : muoviToggleIter wr (m + 1) st
          = muoviToggleIter wr m (muoviToggleStreaming st wr) := rfl
      rw [hstep, ih, muoviToggle_flips]
      rcases Nat.even_or_odd m with hm | hm
      · have h1 : m % 2 = 0 := Nat.even_iff.mp hm
        have h2 : (m + 1) % 2 = 1 := by omega
        simp [h1, h2]
      · have h1 : m % 2 = 1 := Nat.odd_iff.mp hm
        have h2 : (m + 1) % 2 = 0 := by omega
        simp [h1, h2]

/-! ## Sessantaquattro configuration

All numeric mode values are the `aenum` values from
`otb_sessantaquattro_constants.py` (part of the sources): every enum starts
with `NONE = 0` followed by 1-based members, so

* detection: NONE 0, MONOPOLAR 1, BIPOLAR 2, DIFFERENTIAL 3, ACCELEROMETER 4,
  UNDEFINED 5, IMPEDANCE_ADVANCED 6, IMPEDANCE 7, TEST 8;
* sampling frequency: NONE 0, LOW 1, MEDIUM 2, HIGH 3, ULTRA 4;
* channel: NONE 0, LOW 1, MEDIUM 2, HIGH 3, ULTRA 4;
* resolution: NONE 0, LOW 1, HIGH 2;
* gain: NONE 0, DEFAULT 1, LOW 2, MEDIUM 3, HIGH 4;
* trigger: NONE 0, DEFAULT 1, INTERNAL 2, EXTERNAL 3, SDCARD 4;
* recording: NONE 0, STOP 1, START 2. -/

structure SessConfig where
  det : Nat
  samp : Nat
  chan : Nat
  res : Nat
  gain : Nat
  trig : Nat
  recMode : Nat
deriving DecidableEq

/-- Source `OTBSessantaquattro._configure_command`, defaulting part: every
field still holding the `NONE` (0) sentinel is overwritten with the protocol
default (recording STOP, trigger DEFAULT, gain DEFAULT, resolution LOW,
detection MONOPOLAR, channel LOW, sampling frequency HIGH) before encoding. -/
def sessDefaults (c : SessConfig) : SessConfig where
  det := if c.det = 0 then 1 else c.det
  samp := if c.samp = 0 then 3 else c.samp
  chan := if c.chan = 0 then 1 else c.chan
  res := if c.res = 0 then 1 else c.res
  gain := if c.gain = 0 then 1 else c.gain
  trig := if c.trig = 0 then 1 else c.trig
  recMode := if c.recMode = 0 then 1 else c.recMode

/-- Source `OTBSessantaquattro._configure_command`, encoding part: the
two-control-byte accumulation `(value - 1) << shift` with shifts 1 (REC),
2 (TRIG), 4 (GAIN), 6 (HPF, constant 0), 7 (HRES), 8 (MODE), 11 (NCH),
13 (FSAMP), 15 (GETSET, constant 0); bit 0 is left clear for the GO/STOP
streaming bit. -/
def sessCommand (c : SessConfig) : Nat :=
  let d := sessDefaults c
  ((d.recMode - 1) <<< 1) + ((d.trig - 1) <<< 2) + ((d.gain - 1) <<< 4) + (0 <<< 6)
    + ((d.res - 1) <<< 7) + ((d.det - 1) <<< 8) + ((d.chan - 1) <<< 11)
    + ((d.samp - 1) <<< 13) + (0 <<< 15)

/-- Source `SESSANTAQUATTRO_DETECTION_MODE_CHARACTERISTICS_DICT`
(generated from `_get_sampling_frequency`; the `NONE` members are excluded
from the keys, so looking one up raises `KeyError` — `none` here). -/
def sessSamplingFrequencyLookup (det samp : Nat) : Option Nat :=
  if 1 ≤ det ∧ det ≤ 8 ∧ 1 ≤ samp ∧ samp ≤ 4 then
    some ((if det = 4 then 2000 else 500) * 2 ^ (samp - 1))
  else none

/-- Source `SESSANTAQUATTRO_CHANNEL_MODE_CHARACTERISTICS_DICT` (generated
from `_get_biosignal_channel_count`; biosignal halved in BIPOLAR mode,
auxiliary fixed at 4). -/
def sessChannelsLookup (samp det : Nat) : Option (Nat × Nat) :=
  if 1 ≤ samp ∧ samp ≤ 4 ∧ 1 ≤ det ∧ det ≤ 8 then
    let base := 8 * 2 ^ (samp - 1)
    some (if det = 2 then base / 2 else base, 4)
  else none

/-- Source `SESSANTAQUATTRO_GAIN_MODE_CHARACTERISTICS_DICT` (values in mV). -/
def sessGainLookup (res gain : Nat) : Option ℚ :=
  match res, gain with
  | 1, 1 => some (2861 / 10 ^ 7)
  | 1, 2 => some (5722 / 10 ^ 7)
  | 1, 3 => some (3815 / 10 ^ 7)
  | 1, 4 => some (2861 / 10 ^ 7)
  | 2, 1 => some (715 / 10 ^ 7)
  | 2, 2 => some (1430 / 10 ^ 7)
  | 2, 3 => some (954 / 10 ^ 7)
  | 2, 4 => some (715 / 10 ^ 7)
  | _, _ => none

/-- Source `SESSANTAQUATTRO_AUXILIARY_LSB_DICT` (values in mV). -/
def sessAuxLsbLookup (res : Nat) : Option ℚ :=
  match res with
  | 1 => some (14648 / 10 ^ 8)
  | 2 => some (5722 / 10 ^ 7)
  | _ => none

/-- Source `SESSANTAQUATTRO_SAMPLES_PER_FRAME_DICT`. -/
def sessSamplesPerFrameLookup (chan : Nat) : Option Nat :=
  match chan with
  | 1 => some 48
  | 2 => some 28
  | 3 => some 16
  | 4 => some 8
  | _ => none

/-- Modelled from the spec: `SESSANTAQUATTRO_BIOSIGNAL_LSB` is imported by
the device class but its numeric definition is missing from the sources
(the constants module does not define it); the spec only calls it the
gain-and-resolution-dependent conversion base.  Its value decides no claim,
so it is fixed at 1 here. -/
def sessBiosignalLsb : ℚ := 1

structure SessState where
  isConnected : Bool
  isConfigured : Bool
  isStreaming : Bool
  clientOpen : Option Bool
  serverOpen : Option Bool
  config : SessConfig
  samplingFrequency : Option Nat
  nBio : Option Nat
  nAux : Option Nat
  nChannels : Option Nat
  bytesPerSample : Option Nat
  convBio : Option ℚ
  convAux : Option ℚ
  samplesPerFrame : Option Nat
  bufferSize : Option Nat
  receivedLen : Nat
  cmd : Option Int
deriving DecidableEq

/-- Source `OTBSessantaquattro._disconnect_from_device` (same shape as the
Muovi override plus the `BaseDevice` body run via `super()`). -/
def sessDisconnect (st : SessState) : SessState :=
  { st with
    isConnected := false
    isConfigured := false
    clientOpen := st.clientOpen.map (fun _ => false)
    serverOpen := st.serverOpen.map (fun _ => false) }

/-- Errors a `configure_device` call can raise: a failed dictionary lookup
(`KeyError`) or the out-of-range single-byte conversion (`OverflowError`). -/
inductive SessErr
  | keyErr
  | overflowErr
deriving DecidableEq

/-- Source `OTBSessantaquattro._send_configuration_to_device`:
`int(cmd).to_bytes(1, "big")` then `write`; a `-1` write result triggers the
implicit disconnect.  Returns the wire byte next to the resulting state. -/
def sessSendConfiguration (st : SessState) (c : Int) (writeResult : Int) :
    Except SessErr (SessState × Nat) :=
  match toBytes1 c with
  | none => .error .overflowErr
  | some b =>
      if writeResult = -1 then .ok (sessDisconnect st, b) else .ok (st, b)

/-- Source `OTBSessantaquattro.configure_device`, after
`_update_configuration_parameters` has stored the requested modes in
`st.config`: early return while unconnected; then the profile lookups in
source order, the buffer reset, `_configure_command` (which mutates the mode
fields via defaulting), and the send.  The successful result carries the
wire byte (`none` when the early return fired). -/
def sessConfigureDevice (st : SessState) (writeResult : Int) :
    Except SessErr (SessState × Option Nat) :=
  if ¬(st.isConnected = true ∧ st.clientOpen.isSome) then .ok (st, none)
  else
    match sessSamplingFrequencyLookup st.config.det st.config.samp with
    | none => .error .keyErr
    | some freq =>
        match sessChannelsLookup st.config.samp st.config.det with
        | none => .error .keyErr
        | some channels =>
            let bps := if st.config.res = 1 then 2 else 3
            match sessGainLookup st.config.res st.config.gain with
            | none => .error .keyErr
            | some g =>
                match sessAuxLsbLookup st.config.res with
                | none => .error .keyErr
                | some a =>
                    match sessSamplesPerFrameLookup st.config.chan with
                    | none => .error .keyErr
                    | some spf =>
                        let nch := channels.1 + channels.2
                        let cfg2 := sessDefaults st.config
                        let c := sessCommand st.config
                        let st1 := { st with
                          samplingFrequency := some freq
                          nBio := some channels.1
                          nAux := some channels.2
                          nChannels := some nch
                          bytesPerSample := some bps
                          convBio := some (sessBiosignalLsb * g)
                          convAux := some a
                          samplesPerFrame := some spf
                          bufferSize := some (nch * spf * bps)
                          receivedLen := 0
                          config := cfg2
                          cmd := some (c : Int) }
                        match sessSendConfiguration st1 (c : Int) writeResult with
                        | .error e => .error e
                        | .ok p => .ok (p.1, some p.2)

/-- Source `OTBSessantaquattro._start_streaming` (the `super()` body sets the
flag, then the command is incremented and sent). -/
def sessStartStreaming (st : SessState) (writeResult : Int) : SessState :=
  let st1 := { st with isStreaming := true }
  match st1.cmd with
  | none => st1
  | some c =>
      let st2 := { st1 with cmd := some (c + 1) }
      match sessSendConfiguration st2 (c + 1) writeResult with
      | .ok p => p.1
      | .error _ => st2

/-- Source `OTBSessantaquattro._stop_streaming`. -/
def sessStopStreaming (st : SessState) (writeResult : Int) : SessState :=
  let st1 := { st with isStreaming := false }
  match st1.cmd with
  | none => st1
  | some c =>
      let st2 := { st1 with cmd := some (c - 1) }
      match sessSendConfiguration st2 (c - 1) writeResult with
      | .ok p => p.1
      | .error _ => st2

/-! ## Quattrocento send

`OTBQuattrocento._send_configuration_to_device` writes the 40-byte command
buffer and, when the write returns `-1`, only prints an error message — no
disconnect, no retry, no state change.  The boolean result records whether
the message was printed. -/

structure QuattState where
  isConnected : Bool
  isConfigured : Bool
  isStreaming : Bool
deriving DecidableEq

def quattSendConfiguration (st : QuattState) (writeResult : Int) :
    QuattState × Bool :=
  (st, decide (writeResult = -1))

/-! ## Claim theorems -/

lemma crcZeroByteStep : ((List.range 8).foldl (fun p _ => crcRound p) (0, 0)).1 = 0 := by
  decide

lemma crcCheck_zeros (n : Nat) : crcCheck (List.replicate n 0) = 0 := by
  induction n with
  | zero => rfl
  | succ m ih =>
      rw [List.replicate_succ]
      simp only [crcCheck, List.foldl_cons] at ih ⊢
      rw [crcZeroByteStep]
      exact ih

/-- C2: the checksum is a deterministic function of the message bytes that
implements the bit-serial CRC-8 variant with feedback pattern 0x8C exactly as
specified (the string-formatting xor of the source agrees with the bitwise
xor of the reference description on every message), and the 39-byte all-zero
buffer yields the golden checksum 0. -/
theorem c2_crc_implementation :
    (∀ msg : List Nat, crcCheck msg = crcSpec msg)
    ∧ crcCheck (List.replicate 39 0) = 0 :=
  ⟨crcCheck_eq_spec, crcCheck_zeros 39⟩

/-- C3: two's-complement decoding round-trips: encoding any `v` in
[-32768, 32767] as 2 big-endian bytes and decoding with `_decode_int16`
yields `v`, and likewise for [-8388608, 8388607] with 3 bytes and
`_decode_int24`. -/
theorem c3_twos_complement_roundtrip (v : Int) :
    (-32768 ≤ v → v ≤ 32767 → decodeInt16 (encode16 v) = some v)
    ∧ (-8388608 ≤ v → v ≤ 8388607 → decodeInt24 (encode24 v) = some v) := by
  constructor
  · intro h1 h2
    have h0 : (0 : Int) ≤ v % 65536 := Int.emod_nonneg v (by norm_num)
    have hcast : (((v % 65536).toNat : Nat) : Int) = v % 65536 :=
      Int.toNat_of_nonneg h0
    simp only [encode16, decodeInt16, Option.some.injEq]
    split_ifs with hge
    · omega
    · omega
  · intro h1 h2
    have h0 : (0 : Int) ≤ v % 16777216 := Int.emod_nonneg v (by norm_num)
    have hcast : (((v % 16777216).toNat : Nat) : Int) = v % 16777216 :=
      Int.toNat_of_nonneg h0
    simp only [encode24, decodeInt24, Option.some.injEq]
    split_ifs with hge
    · omega
    · omega

/-- C3 witness. -/
theorem c3_twos_complement_roundtrip_witness :
    decodeInt16 (encode16 (-5)) = some (-5) ∧ decodeInt24 (encode24 (-5)) = some (-5) :=
  ⟨(c3_twos_complement_roundtrip (-5)).1 (by norm_num) (by norm_num),
   (c3_twos_complement_roundtrip (-5)).2 (by norm_num) (by norm_num)⟩

/-- C4 (code bug): the sample decoder splits a 2-byte-per-sample frame into
`len / 2` correct slices, but for a 3-byte-per-sample frame (EEG / high
resolution) it still iterates `range(len(data) // 2)` — here a six-byte
frame (one channel, two samples at 3 bytes) produces three slice attempts
and the third, empty, slice raises `IndexError` (`none`), where the claim
expects the two decoded samples. -/
theorem c4_sample_decoder_failing_input :
    muoviBytesToIntegers .EMG 2 [0, 0, 0, 0] = some [0, 0]
    ∧ muoviBytesToIntegers .EEG 3 [0, 0, 0, 0, 0, 0] = none := by
  constructor
  · rfl
  · rfl

/-- C8: after every completed reassembly pass, for every chunk sequence and
positive threshold, the retained buffer holds strictly fewer bytes than the
threshold and every frame handed to the decoder has exactly threshold
length. -/
theorem c8_framebuffer_invariant (T : Nat) (chunks : List (List Nat)) (hT : 0 < T) :
    (reassemble T chunks).2.length < T
    ∧ ∀ f ∈ (reassemble T chunks).1, f.length = T := by
  have h := reassemble_spec T hT chunks
  exact ⟨h.2, h.1⟩

/-- C8 witness. -/
theorem c8_framebuffer_invariant_witness :
    (0 : Nat) < 2
    ∧ ((reassemble 2 [[0, 0, 0]]).2.length < 2
        ∧ ∀ f ∈ (reassemble 2 [[0, 0, 0]]).1, f.length = 2) :=
  ⟨by decide, c8_framebuffer_invariant 2 [[0, 0, 0]] (by decide)⟩

/-- C9 counterexample: `_disconnect_from_device` never clears
`_is_streaming` — from a streaming session it leaves the flag set, so
disconnect does not clear all three lifecycle flags as claimed. -/
theorem c9_disconnect_counterexample :
    (muoviDisconnect ⟨true, true, true, some true, some true, some 5⟩).isStreaming
      = true := rfl

/-- C9 (amended): disconnect is legal from every state; it clears
`is_connected` and `_is_configured`, closes both transport handles when they
exist, and is idempotent — but it leaves `_is_streaming` untouched (the
streaming flag is cleared separately by `toggle_connection`, which stops
streaming before disconnecting). -/
theorem c9_disconnect_amended (st : MuoviState) :
    (muoviDisconnect st).isConnected = false
    ∧ (muoviDisconnect st).isConfigured = false
    ∧ (muoviDisconnect st).clientOpen ≠ some true
    ∧ (muoviDisconnect st).serverOpen ≠ some true
    ∧ muoviDisconnect (muoviDisconnect st) = muoviDisconnect st
    ∧ (muoviDisconnect st).isStreaming = st.isStreaming := by
  cases st with
  | mk a b c d e f =>
      refine ⟨rfl, rfl, ?_, ?_, ?_, rfl⟩
      · cases d <;> simp [muoviDisconnect]
      · cases e <;> simp [muoviDisconnect]
      · cases d <;> cases e <;> simp [muoviDisconnect]

/-- C1 counterexample: at the claim's own scenario (threshold 768, a
1536-byte stream delivered as two 768-byte chunks while streaming) the
reassembler hands exactly one frame to the decoder, not two — the outer loop
reads only while the socket holds *strictly more* than the threshold, so the
second frame's 768 bytes stay unread in the socket. -/
theorem c1_chunking_invariance_counterexample :
    (deliver 768 [List.replicate 768 0, List.replicate 768 0]).frames.length = 1
    ∧ (deliver 768 [List.replicate 768 0, List.replicate 768 0]).frames.length ≠ 2
    ∧ (deliver 768 [List.replicate 768 0, List.replicate 768 0]).sock.length = 768 := by
  have h := deliver_frames_count 768 2 (by norm_num) (by norm_num)
      [List.replicate 768 0, List.replicate 768 0]
      (by simp only [List.map_cons, List.map_nil, List.length_replicate,
            List.sum_cons, List.sum_nil]
          norm_num)
  refine ⟨h.1, ?_, h.2⟩
  rw [h.1]
  norm_num

/-- C1 (amended): for every positive threshold `T`, every `N ≥ 1` and every
way of chunking a byte stream of total length `N × T` delivered while
streaming, the reassembler hands exactly `N - 1` frames to the decoder and
leaves exactly `T` bytes pending in the socket — one frame fewer than the
claim states, independent of the chunking. -/
theorem c1_chunking_invariance_amended (T N : Nat) (chunks : List (List Nat))
    (hT : 0 < T) (hN : 1 ≤ N) (hsum : (chunks.map List.length).sum = N * T) :
    (deliver T chunks).frames.length = N - 1
    ∧ (deliver T chunks).sock.length = T :=
  deliver_frames_count T N hT hN chunks hsum

/-- C1 witness. -/
theorem c1_chunking_invariance_amended_witness :
    (0 : Nat) < 1 ∧ (1 : Nat) ≤ 2
    ∧ (([[0], [0]].map List.length).sum = 2 * 1)
    ∧ ((deliver 1 [[0], [0]]).frames.length = 2 - 1
        ∧ (deliver 1 [[0], [0]]).sock.length = 1) :=
  ⟨by decide, by decide, by decide,
   c1_chunking_invariance_amended 1 2 [[0], [0]] (by decide) (by decide) (by decide)⟩

/-- C7 counterexample: on the Quattrocento a failed configuration write only
prints an error message — the session stays connected and configured, no
implicit disconnect happens. -/
theorem c7_write_failure_counterexample :
    ((quattSendConfiguration ⟨true, true, false⟩ (-1)).1).isConnected = true
    ∧ (quattSendConfiguration ⟨true, true, false⟩ (-1)).2 = true := by
  constructor
  · rfl
  · rfl

/-- C7 (amended): a failed configuration write (`write` returning `-1`)
triggers the implicit disconnect on the Muovi and the Sessantaquattro —
the session leaves the connected/configured states and the transport handles
are closed — but on the Quattrocento it only logs an error message and
leaves the session state unchanged. -/
theorem c7_write_failure_amended :
    (∀ (st : MuoviState) (c : Int), st.cmd = some c → 0 ≤ c → c < 256 →
        muoviSendConfiguration st (-1) = some (muoviDisconnect st, c.toNat)
        ∧ (muoviDisconnect st).isConnected = false
        ∧ (muoviDisconnect st).isConfigured = false
        ∧ (muoviDisconnect st).clientOpen ≠ some true
        ∧ (muoviDisconnect st).serverOpen ≠ some true)
    ∧ (∀ (st : SessState) (c : Int), 0 ≤ c → c < 256 →
        sessSendConfiguration st c (-1) = .ok (sessDisconnect st, c.toNat)
        ∧ (sessDisconnect st).isConnected = false
        ∧ (sessDisconnect st).isConfigured = false)
    ∧ (∀ st : QuattState, quattSendConfiguration st (-1) = (st, true)) := by
  refine ⟨?_, ?_, ?_⟩
  · intro st c hc h0 h256
    have hb : toBytes1 c = some c.toNat := by
      simp [toBytes1, h0, h256]
    refine ⟨?_, rfl, rfl, ?_, ?_⟩
    · simp [muoviSendConfiguration, hc, hb]
    · cases h : st.clientOpen <;> simp [muoviDisconnect, h]
    · cases h : st.serverOpen <;> simp [muoviDisconnect, h]
  · intro st c h0 h256
    have hb : toBytes1 c = some c.toNat := by
      simp [toBytes1, h0, h256]
    refine ⟨?_, rfl, rfl⟩
    simp [sessSendConfiguration, hb]
  · intro st
    simp [quattSendConfiguration]

lemma muoviSend_preserves_cmd (st : MuoviState) (wr : Int) (p : MuoviState × Nat)
    (h : muoviSendConfiguration st wr = some p) : p.1.cmd = st.cmd := by
  rcases hc : st.cmd with _ | c
  · simp [muoviSendConfiguration, hc] at h
  · rcases hb : toBytes1 c with _ | b
    · simp [muoviSendConfiguration, hc, hb] at h
    · simp only [muoviSendConfiguration, hc, hb, Option.some.injEq] at h
      rw [← h]
      by_cases hw : wr = -1
      · simp [hw, muoviDisconnect, hc]
      · simp [hw, hc]

lemma muoviStart_cmd (st : MuoviState) (wr : Int) (c : Int) (h : st.cmd = some c) :
    (muoviStartStreaming st wr).cmd = some (c + 1) := by
  simp only [muoviStartStreaming, h]
  rcases hs : muoviSendConfiguration
      { st with isStreaming := true, cmd := some (c + 1) } wr with _ | p
  · rfl
  · exact muoviSend_preserves_cmd _ _ _ hs

lemma muoviStop_cmd (st : MuoviState) (wr : Int) (c : Int) (h : st.cmd = some c) :
    (muoviStopStreaming st wr).cmd = some (c - 1) := by
  simp only [muoviStopStreaming, h]
  rcases hs : muoviSendConfiguration
      { st with isStreaming := false, cmd := some (c - 1) } wr with _ | p
  · rfl
  · exact muoviSend_preserves_cmd _ _ _ hs

lemma sessSend_preserves_cmd (st : SessState) (c wr : Int) (p : SessState × Nat)
    (h : sessSendConfiguration st c wr = .ok p) : p.1.cmd = st.cmd := by
  rcases hb : toBytes1 c with _ | b
  · simp [sessSendConfiguration, hb] at h
  · simp only [sessSendConfiguration, hb] at h
    by_cases hw : wr = -1
    · rw [if_pos hw] at h
      simp only [Except.ok.injEq] at h
      rw [← h]
      simp [sessDisconnect]
    · rw [if_neg hw] at h
      simp only [Except.ok.injEq] at h
      rw [← h]

lemma sessStart_cmd (st : SessState) (wr : Int) (c : Int) (h : st.cmd = some c) :
    (sessStartStreaming st wr).cmd = some (c + 1) := by
  simp only [sessStartStreaming, h]
  rcases hs : sessSendConfiguration
      { st with isStreaming := true, cmd := some (c + 1) } (c + 1) wr with e | p
  · rfl
  · exact sessSend_preserves_cmd _ _ _ _ hs

lemma sessStop_cmd (st : SessState) (wr : Int) (c : Int) (h : st.cmd = some c) :
    (sessStopStreaming st wr).cmd = some (c - 1) := by
  simp only [sessStopStreaming, h]
  rcases hs : sessSendConfiguration
      { st with isStreaming := false, cmd := some (c - 1) } (c - 1) wr with e | p
  · rfl
  · exact sessSend_preserves_cmd _ _ _ _ hs

lemma sessCommand_even (c : SessConfig) : sessCommand c % 2 = 0 := by
  simp only [sessCommand, Nat.shiftLeft_eq]
  omega

/-- C6: streaming toggles behave as claimed wherever the sources decide it:
(1) after `n` `toggle_streaming()` calls from a non-streaming session the
session reports `is_streaming` exactly for odd `n`; (2) every encoded
Sessantaquattro configuration command is even (bit 0, the GO/STOP streaming
bit, is left clear by the encoder); (3)/(4) `start`, `stop`, `start` from a
configured session with command `c` leaves the command at `c + 1` on both
single-byte devices, whatever the write results; (5) for an even command
`m`, `m + 1` is odd — the streaming LSB is set — and the increment flips
exactly bit 0, leaving every other bit unchanged; (6) the Muovi encoder
yields an even command whenever the detection-mode value is even (the Muovi
enum values themselves are not part of the sources). -/
theorem c6_streaming_toggle :
    (∀ (wr : Int) (n : Nat) (st : MuoviState), st.isStreaming = false →
        (muoviToggleIter wr n st).isStreaming = decide (n % 2 = 1))
    ∧ (∀ cfg : SessConfig, sessCommand cfg % 2 = 0)
    ∧ (∀ (st : SessState) (wr c : Int), st.cmd = some c →
        (sessStartStreaming (sessStopStreaming (sessStartStreaming st wr) wr) wr).cmd
          = some (c + 1))
    ∧ (∀ (st : MuoviState) (wr c : Int), st.cmd = some c →
        (muoviStartStreaming (muoviStopStreaming (muoviStartStreaming st wr) wr) wr).cmd
          = some (c + 1))
    ∧ (∀ m : Nat, m % 2 = 0 →
        (m + 1) % 2 = 1
        ∧ Nat.testBit (m + 1) 0 = !Nat.testBit m 0
        ∧ ∀ k, Nat.testBit (m + 1) (k + 1) = Nat.testBit m (k + 1))
    ∧ (∀ w d : Nat, d % 2 = 0 → muoviConfigureCommand w d % 2 = 0) := by
  refine ⟨?_, sessCommand_even, ?_, ?_, ?_, ?_⟩
  · intro wr n st h
    rw [muoviToggleIter_parity, h]
    simp
  · intro st wr c h
    have h1 := sessStart_cmd st wr c h
    have h2 := sessStop_cmd _ wr (c + 1) h1
    have h2e : (sessStopStreaming (sessStartStreaming st wr) wr).cmd = some c := by
      rw [h2]; norm_num
    exact sessStart_cmd _ wr c h2e
  · intro st wr c h
    have h1 := muoviStart_cmd st wr c h
    have h2 := muoviStop_cmd _ wr (c + 1) h1
    have h2e : (muoviStopStreaming (muoviStartStreaming st wr) wr).cmd = some c := by
      rw [h2]; norm_num
    exact muoviStart_cmd _ wr c h2e
  · intro m hm
    have h0 : (m + 1) % 2 = 1 := by omega
    refine ⟨h0, ?_, ?_⟩
    · rw [Nat.testBit_zero, Nat.testBit_zero, h0, hm]
      simp
    · intro k
      rw [Nat.testBit_succ, Nat.testBit_succ]
      have : (m + 1) / 2 = m / 2 := by omega
      rw [this]
  · intro w d hd
    simp only [muoviConfigureCommand, Nat.shiftLeft_eq]
    omega

/-- C6 witness. -/
theorem c6_streaming_toggle_witness :
    ((⟨false, false, false, none, none, none⟩ : MuoviState).isStreaming = false
      ∧ (muoviToggleIter 0 3 ⟨false, false, false, none, none, none⟩).isStreaming
          = decide (3 % 2 = 1))
    ∧ (((⟨true, true, false, some true, some true, some 4⟩ : MuoviState).cmd = some 4)
      ∧ (muoviStartStreaming (muoviStopStreaming (muoviStartStreaming
            ⟨true, true, false, some true, some true, some 4⟩ 0) 0) 0).cmd = some (4 + 1))
    ∧ ((4 : Nat) % 2 = 0 ∧ (4 + 1 : Nat) % 2 = 1) := by
  refine ⟨⟨rfl, ?_⟩, ⟨rfl, ?_⟩, by decide, ?_⟩
  · exact c6_streaming_toggle.1 0 3 _ rfl
  · exact c6_streaming_toggle.2.2.2.1 _ 0 4 rfl
  · exact (c6_streaming_toggle.2.2.2.2.1 4 (by decide)).1

lemma sessDefaults_range (c : SessConfig)
    (hdet : c.det ≤ 8) (hsamp : c.samp ≤ 4) (hchan : c.chan ≤ 4) (hres : c.res ≤ 2)
    (hgain : c.gain ≤ 4) (htrig : c.trig ≤ 4) (hrec : c.recMode ≤ 2) :
    (1 ≤ (sessDefaults c).det ∧ (sessDefaults c).det ≤ 8)
    ∧ (1 ≤ (sessDefaults c).samp ∧ (sessDefaults c).samp ≤ 4)
    ∧ (1 ≤ (sessDefaults c).chan ∧ (sessDefaults c).chan ≤ 4)
    ∧ (1 ≤ (sessDefaults c).res ∧ (sessDefaults c).res ≤ 2)
    ∧ (1 ≤ (sessDefaults c).gain ∧ (sessDefaults c).gain ≤ 4)
    ∧ (1 ≤ (sessDefaults c).trig ∧ (sessDefaults c).trig ≤ 4)
    ∧ (1 ≤ (sessDefaults c).recMode ∧ (sessDefaults c).recMode ≤ 2) := by
  simp only [sessDefaults]
  refine ⟨?_, ?_, ?_, ?_, ?_, ?_, ?_⟩ <;> split_ifs <;> omega

lemma sessCommand_expand (c : SessConfig) :
    sessCommand c =
      ((sessDefaults c).recMode - 1) * 2 + ((sessDefaults c).trig - 1) * 4
        + ((sessDefaults c).gain - 1) * 16 + ((sessDefaults c).res - 1) * 128
        + ((sessDefaults c).det - 1) * 256 + ((sessDefaults c).chan - 1) * 2048
        + ((sessDefaults c).samp - 1) * 8192 := by
  simp only [sessCommand, Nat.shiftLeft_eq]
  norm_num

/-- C10: for every configuration reachable through `configure_device` on the
Sessantaquattro, the assembled two-control-byte command exceeds 255 exactly
when the detection-mode, channel-mode or sampling-frequency-mode field
carries a nonzero encoded value (these occupy bits 8–15); the defaulted
sampling-frequency mode HIGH alone contributes `(3-1) << 13 = 16384`; and
the one-byte big-endian conversion in `_send_configuration_to_device`
raises `OverflowError` (`none`) for every such command, while commands below
256 go out as that single byte. -/
theorem c10_sess_command_overflow (c : SessConfig)
    (hdet : c.det ≤ 8) (hsamp : c.samp ≤ 4) (hchan : c.chan ≤ 4) (hres : c.res ≤ 2)
    (hgain : c.gain ≤ 4) (htrig : c.trig ≤ 4) (hrec : c.recMode ≤ 2) :
    (256 ≤ sessCommand c ↔
      ((sessDefaults c).det ≠ 1 ∨ (sessDefaults c).chan ≠ 1 ∨ (sessDefaults c).samp ≠ 1))
    ∧ (c.samp = 0 → 16384 ≤ sessCommand c)
    ∧ (256 ≤ sessCommand c → toBytes1 ((sessCommand c : Nat) : Int) = none)
    ∧ (sessCommand c < 256 → toBytes1 ((sessCommand c : Nat) : Int) = some (sessCommand c)) := by
  obtain ⟨b1, b2, b3, b4, b5, b6, b7⟩ :=
    sessDefaults_range c hdet hsamp hchan hres hgain htrig hrec
  have hex := sessCommand_expand c
  refine ⟨?_, ?_, ?_, ?_⟩
  · rw [hex]
    omega
  · intro h0
    have hs : (sessDefaults c).samp = 3 := by
      simp [sessDefaults, h0]
    rw [hex, hs]
    omega
  · intro hge
    rw [toBytes1, if_neg]
    push_neg
    intro h0
    omega
  · intro hlt
    rw [toBytes1, if_pos ⟨Int.natCast_nonneg _, by omega⟩]
    simp

/-- C10 witness. -/
theorem c10_sess_command_overflow_witness :
    ((⟨1, 0, 1, 1, 1, 1, 1⟩ : SessConfig).det ≤ 8 ∧ (⟨1, 0, 1, 1, 1, 1, 1⟩ : SessConfig).samp ≤ 4)
    ∧ (⟨1, 0, 1, 1, 1, 1, 1⟩ : SessConfig).samp = 0
    ∧ 16384 ≤ sessCommand ⟨1, 0, 1, 1, 1, 1, 1⟩
    ∧ toBytes1 ((sessCommand ⟨1, 0, 1, 1, 1, 1, 1⟩ : Nat) : Int) = none := by
  have h := c10_sess_command_overflow ⟨1, 0, 1, 1, 1, 1, 1⟩
    (by decide) (by decide) (by decide) (by decide) (by decide) (by decide) (by decide)
  have h2 := h.2.1 rfl
  exact ⟨⟨by decide, by decide⟩, rfl, h2, h.2.2.1 (by omega)⟩

lemma sessFreqLookup_some (det samp : Nat)
    (h1 : 1 ≤ det) (h2 : det ≤ 8) (h3 : 1 ≤ samp) (h4 : samp ≤ 4) :
    sessSamplingFrequencyLookup det samp
      = some ((if det = 4 then 2000 else 500) * 2 ^ (samp - 1)) := by
  rw [sessSamplingFrequencyLookup, if_pos ⟨h1, h2, h3, h4⟩]

lemma sessChannelsLookup_some (samp det : Nat)
    (h1 : 1 ≤ det) (h2 : det ≤ 8) (h3 : 1 ≤ samp) (h4 : samp ≤ 4) :
    sessChannelsLookup samp det
      = some (if det = 2 then 8 * 2 ^ (samp - 1) / 2 else 8 * 2 ^ (samp - 1), 4) := by
  rw [sessChannelsLookup, if_pos ⟨h3, h4, h1, h2⟩]

lemma sessGainLookup_some (res gain : Nat)
    (h1 : 1 ≤ res) (h2 : res ≤ 2) (h3 : 1 ≤ gain) (h4 : gain ≤ 4) :
    ∃ g, sessGainLookup res gain = some g := by
  interval_cases res <;> interval_cases gain <;> exact ⟨_, rfl⟩

lemma sessAuxLsbLookup_some (res : Nat) (h1 : 1 ≤ res) (h2 : res ≤ 2) :
    ∃ a, sessAuxLsbLookup res = some a := by
  interval_cases res <;> exact ⟨_, rfl⟩

lemma sessSpfLookup_some (chan : Nat) (h1 : 1 ≤ chan) (h2 : chan ≤ 4) :
    ∃ s, sessSamplesPerFrameLookup chan = some s := by
  interval_cases chan <;> exact ⟨_, rfl⟩

lemma sessDisconnect_config (st : SessState) :
    (sessDisconnect st).config = st.config := rfl

/-- C5 (amended): `configure_device` on the Sessantaquattro performs no
"incomplete configuration" validation at all.  With the five profile-driving
fields set and the trigger mode still at its `NONE` sentinel, the call does
not fail: the sentinel is silently replaced by the protocol default
(DEFAULT, value 1) inside `_configure_command`, a command is encoded, and —
when it fits one byte — written to the device (when it does not fit, the
failure is an `OverflowError` from the byte conversion, not a validation
error).  With the resolution mode unset instead, the call dies with an
unhandled `KeyError` from the gain-table lookup — again not a validation
error — after session fields were already mutated. -/
theorem c5_incomplete_configuration_amended :
    (∀ (st : SessState) (wr : Int),
        st.isConnected = true → st.clientOpen.isSome = true →
        1 ≤ st.config.det → st.config.det ≤ 8 →
        1 ≤ st.config.samp → st.config.samp ≤ 4 →
        1 ≤ st.config.chan → st.config.chan ≤ 4 →
        1 ≤ st.config.res → st.config.res ≤ 2 →
        1 ≤ st.config.gain → st.config.gain ≤ 4 →
        st.config.trig = 0 →
        (sessCommand st.config < 256 →
            ∃ st2, sessConfigureDevice st wr = .ok (st2, some (sessCommand st.config))
              ∧ st2.config = sessDefaults st.config
              ∧ st2.config.trig = 1)
        ∧ (256 ≤ sessCommand st.config →
            sessConfigureDevice st wr = .error .overflowErr))
    ∧ (∀ (st : SessState) (wr : Int),
        st.isConnected = true → st.clientOpen.isSome = true →
        1 ≤ st.config.det → st.config.det ≤ 8 →
        1 ≤ st.config.samp → st.config.samp ≤ 4 →
        st.config.res = 0 →
        sessConfigureDevice st wr = .error .keyErr) := by
  constructor
  · intro st wr hconn hsock d1 d2 s1 s2 ch1 ch2 r1 r2 g1 g2 htrig
    have hfreq := sessFreqLookup_some st.config.det st.config.samp d1 d2 s1 s2
    have hch := sessChannelsLookup_some st.config.samp st.config.det d1 d2 s1 s2
    obtain ⟨g, hg⟩ := sessGainLookup_some st.config.res st.config.gain r1 r2 g1 g2
    obtain ⟨a, ha⟩ := sessAuxLsbLookup_some st.config.res r1 r2
    obtain ⟨spf, hspf⟩ := sessSpfLookup_some st.config.chan ch1 ch2
    have htrigd : (sessDefaults st.config).trig = 1 := by
      simp [sessDefaults, htrig]
    constructor
    · intro hlt
      have hb : toBytes1 ((sessCommand st.config : Nat) : Int)
          = some (sessCommand st.config) := by
        rw [toBytes1, if_pos ⟨Int.natCast_nonneg _, by omega⟩]
        simp
      simp only [sessConfigureDevice, hconn, hsock, and_self, not_true_eq_false,
        if_false, hfreq, hch, hg, ha, hspf, sessSendConfiguration, hb]
      by_cases hw : wr = -1
      · rw [if_pos hw]
        exact ⟨_, rfl, rfl, htrigd⟩
      · rw [if_neg hw]
        exact ⟨_, rfl, rfl, htrigd⟩
    · intro hge
      have hb : toBytes1 ((sessCommand st.config : Nat) : Int) = none := by
        rw [toBytes1, if_neg]
        push_neg
        intro h0
        omega
      simp only [sessConfigureDevice, hconn, hsock, and_self, not_true_eq_false,
        if_false, hfreq, hch, hg, ha, hspf, sessSendConfiguration, hb]
  · intro st wr hconn hsock d1 d2 s1 s2 hres
    have hfreq := sessFreqLookup_some st.config.det st.config.samp d1 d2 s1 s2
    have hch := sessChannelsLookup_some st.config.samp st.config.det d1 d2 s1 s2
    have hg : sessGainLookup st.config.res st.config.gain = none := by
      rw [hres]
      rfl
    simp only [sessConfigureDevice, hconn, hsock, and_self, not_true_eq_false,
      if_false, hfreq, hch, hg]

/-- C5 witness. -/
theorem c5_incomplete_configuration_amended_witness :
    ∃ st2, sessConfigureDevice
        ⟨true, false, false, some true, some true, ⟨1, 1, 1, 1, 1, 0, 1⟩,
          none, none, none, none, none, none, none, none, none, 0, none⟩ 0
      = .ok (st2, some (sessCommand ⟨1, 1, 1, 1, 1, 0, 1⟩))
      ∧ st2.config = sessDefaults ⟨1, 1, 1, 1, 1, 0, 1⟩
      ∧ st2.config.trig = 1 :=
  ((c5_incomplete_configuration_amended.1
      ⟨true, false, false, some true, some true, ⟨1, 1, 1, 1, 1, 0, 1⟩,
        none, none, none, none, none, none, none, none, none, 0, none⟩ 0
      rfl rfl (by decide) (by decide) (by decide) (by decide) (by decide) (by decide)
      (by decide) (by decide) (by decide) (by decide) (by decide)).1
    (by decide))

/-- Session state for the C5 counterexample: connected, accepted client
socket present, every configuration field selected except the trigger mode,
which still holds its `NONE` (0) sentinel. -/
def c5State : SessState where
  isConnected := true
  isConfigured := false
  isStreaming := false
  clientOpen := some true
  serverOpen := some true
  config := ⟨1, 1, 1, 1, 1, 0, 1⟩
  samplingFrequency := none
  nBio := none
  nAux := none
  nChannels := none
  bytesPerSample := none
  convBio := none
  convAux := none
  samplesPerFrame := none
  bufferSize := none
  receivedLen := 0
  cmd := none

def sessSentByte : Except SessErr (SessState × Option Nat) → Option Nat
  | .ok p => p.2
  | .error _ => none

def sessTrigAfter : Except SessErr (SessState × Option Nat) → Option Nat
  | .ok p => some p.1.config.trig
  | .error _ => none

/-- C5 counterexample: calling `configure_device` with the trigger mode still
unset does not fail with any `IncompleteConfiguration` error — the encoded
command byte 0 is written to the device and the sentinel has been silently
replaced by the protocol default (trigger mode DEFAULT, value 1), refuting
the claim at this concrete input. -/
theorem c5_incomplete_configuration_counterexample :
    sessSentByte (sessConfigureDevice c5State 0) = some 0
    ∧ sessTrigAfter (sessConfigureDevice c5State 0) = some 1 := by
  constructor
  · rfl
  · rfl

/-- C7 witness. -/
theorem c7_write_failure_amended_witness :
    ((⟨true, true, false, some true, some true, some 7⟩ : MuoviState).cmd = some 7
      ∧ muoviSendConfiguration ⟨true, true, false, some true, some true, some 7⟩ (-1)
          = some (muoviDisconnect ⟨true, true, false, some true, some true, some 7⟩,
              (7 : Int).toNat))
    ∧ sessSendConfiguration
        ⟨true, false, false, some true, some true, ⟨1, 1, 1, 1, 1, 1, 1⟩,
          none, none, none, none, none, none, none, none, none, 0, none⟩ 7 (-1)
        = .ok (sessDisconnect
            ⟨true, false, false, some true, some true, ⟨1, 1, 1, 1, 1, 1, 1⟩,
              none, none, none, none, none, none, none, none, none, 0, none⟩,
            (7 : Int).toNat)
    ∧ quattSendConfiguration ⟨true, true, false⟩ (-1) = (⟨true, true, false⟩, true) := by
  refine ⟨⟨rfl, ?_⟩, ?_, ?_⟩
  · exact (c7_write_failure_amended.1 _ 7 rfl (by decide) (by decide)).1
  · exact (c7_write_failure_amended.2.1 _ 7 (by decide) (by decide)).1
  · exact c7_write_failure_amended.2.2 _
